import Mathlib

/-!
Shallow embedding of the electrical fault diagnosis engine.

The rule-based diagnoser lives in `src/static/Electrical.py`
(class `FaultDiagnosis`); the statistical path is the `/api/diagnose`
handler in `src/app.py`. Readings are modelled over `ℚ`: every
comparison and arithmetic operation the engine performs is exact on the
values the claims mention, so rationals are a faithful model of the
Python float arithmetic for these properties. The reactive-power
utility takes a real square root, so it alone is modelled over `ℝ`.
-/

namespace Electrical

/-- Threshold constants of `FaultDiagnosis` (Electrical.py lines 43-50). -/
def VOLTAGE_MIN : ℚ := 200

/-- Upper voltage threshold. -/
def VOLTAGE_MAX : ℚ := 250

/-- Maximal current. -/
def CURRENT_MAX : ℚ := 30

/-- Lower frequency threshold. -/
def FREQUENCY_MIN : ℚ := 48

/-- Upper frequency threshold. -/
def FREQUENCY_MAX : ℚ := 52

/-- Minimal power factor. -/
def POWER_FACTOR_MIN : ℚ := 85 / 100

/-- Maximal phase imbalance, in percent. -/
def PHASE_IMBALANCE_MAX : ℚ := 5

/-- Maximal temperature. -/
def TEMPERATURE_MAX : ℚ := 80

/-- The `FaultType` enumeration (Electrical.py lines 12-23). -/
inductive FaultType where
  | SHORT_CIRCUIT
  | OPEN_CIRCUIT
  | GROUND_FAULT
  | PHASE_IMBALANCE
  | OVERVOLTAGE
  | UNDERVOLTAGE
  | OVERCURRENT
  | HARMONIC_DISTORTION
  | POWER_FACTOR_LOW
  | NONE
deriving DecidableEq, Repr

/-- The `.value` string of each enum member. -/
def FaultType.value : FaultType → String
  | .SHORT_CIRCUIT => "Short Circuit"
  | .OPEN_CIRCUIT => "Open Circuit"
  | .GROUND_FAULT => "Ground Fault"
  | .PHASE_IMBALANCE => "Phase Imbalance"
  | .OVERVOLTAGE => "Overvoltage"
  | .UNDERVOLTAGE => "Undervoltage"
  | .OVERCURRENT => "Overcurrent"
  | .HARMONIC_DISTORTION => "Harmonic Distortion"
  | .POWER_FACTOR_LOW => "Low Power Factor"
  | .NONE => "No Fault"

/-- The `ElectricalReading` dataclass (Electrical.py lines 26-36). -/
structure ElectricalReading where
  voltage : ℚ
  current : ℚ
  frequency : ℚ
  power_factor : ℚ
  phase_a : ℚ
  phase_b : ℚ
  phase_c : ℚ
  temperature : ℚ
deriving DecidableEq, Repr

/-- The diagnosis result dictionary returned by `FaultDiagnosis.diagnose`.
The `details` entry is presentation-only float formatting (never re-parsed,
mentioned by no claim) and is not modelled. -/
structure DiagnosisResult where
  primary_fault : String
  all_faults : List String
  severity : String
  confidence : ℚ
  action : String
deriving DecidableEq, Repr

/-- `FaultDiagnosis._check_voltage` (lines 119-125). -/
def check_voltage (voltage : ℚ) : Option FaultType :=
  if voltage > VOLTAGE_MAX then some .OVERVOLTAGE
  else if voltage < VOLTAGE_MIN then some .UNDERVOLTAGE
  else none

/-- `FaultDiagnosis._check_current` (lines 127-131). -/
def check_current (current : ℚ) : Option FaultType :=
  if current > CURRENT_MAX then some .OVERCURRENT else none

/-- `FaultDiagnosis._check_frequency` (lines 133-137). -/
def check_frequency (frequency : ℚ) : Option FaultType :=
  if frequency < FREQUENCY_MIN ∨ frequency > FREQUENCY_MAX then
    some .HARMONIC_DISTORTION
  else none

/-- `FaultDiagnosis._check_power_factor` (lines 139-143). -/
def check_power_factor (power_factor : ℚ) : Option FaultType :=
  if power_factor < POWER_FACTOR_MIN then some .POWER_FACTOR_LOW else none

/-- `FaultDiagnosis._check_phase_imbalance` (lines 145-159). -/
def check_phase_imbalance (va vb vc : ℚ) : Option FaultType :=
  let avg_voltage := (va + vb + vc) / 3
  if avg_voltage = 0 then none
  else
    let imbalance_a := |(va - avg_voltage) / avg_voltage| * 100
    let imbalance_b := |(vb - avg_voltage) / avg_voltage| * 100
    let imbalance_c := |(vc - avg_voltage) / avg_voltage| * 100
    let max_imbalance := max imbalance_a (max imbalance_b imbalance_c)
    if max_imbalance > PHASE_IMBALANCE_MAX then some .PHASE_IMBALANCE else none

/-- `FaultDiagnosis._check_temperature` (lines 161-165): an overtemperature
is reported as `OVERCURRENT` (comment in source: usually caused by
overcurrent). -/
def check_temperature (temperature : ℚ) : Option FaultType :=
  if temperature > TEMPERATURE_MAX then some .OVERCURRENT else none

/-- The fixed `severity_map` dictionary inside `_calculate_severity`
(lines 175-182). -/
def severity_map : FaultType → Option String
  | .SHORT_CIRCUIT => some "Critical"
  | .GROUND_FAULT => some "Critical"
  | .OVERCURRENT => some "High"
  | .OVERVOLTAGE => some "High"
  | .PHASE_IMBALANCE => some "Medium"
  | .POWER_FACTOR_LOW => some "Low"
  | _ => none

/-- The scan loop of `_calculate_severity` (lines 184-188): return the
severity of the first fault present in `severity_map`, defaulting to
Medium. -/
def scan_severity : List FaultType → String
  | [] => "Medium"
  | f :: rest =>
    match severity_map f with
    | some s => s
    | none => scan_severity rest

/-- `FaultDiagnosis._calculate_severity` (lines 167-188); the `reading`
parameter of the Python method is unused there and omitted. -/
def calculate_severity (faults : List FaultType) : String :=
  if faults = [] ∨ FaultType.NONE ∈ faults then "None"
  else if 3 ≤ faults.length then "Critical"
  else scan_severity faults

/-- `FaultDiagnosis._calculate_confidence` (lines 190-204). -/
def calculate_confidence (r : ElectricalReading) : ℚ :=
  let confidence : ℚ := 100
  let confidence :=
    if r.voltage > VOLTAGE_MAX * (3 / 2) ∨ r.voltage < VOLTAGE_MIN * (1 / 2)
    then confidence - 10 else confidence
  let confidence := if r.current > CURRENT_MAX * (3 / 2) then confidence - 10 else confidence
  let confidence := if r.power_factor < 7 / 10 then confidence - 15 else confidence
  max 0 (min 100 confidence)

/-- `FaultDiagnosis._recommend_action` (lines 206-221). Every enum member
has an entry, so the `.get` fallback string is unreachable here. -/
def recommend_action : FaultType → String
  | .SHORT_CIRCUIT => "IMMEDIATE ACTION: Isolate circuit and check for damaged wiring or components."
  | .OPEN_CIRCUIT => "Check continuity and repair broken connections."
  | .GROUND_FAULT => "Isolate system and test insulation resistance. Repair grounding issues."
  | .PHASE_IMBALANCE => "Check load distribution across phases and rebalance if necessary."
  | .OVERVOLTAGE => "Check voltage regulator and power supply settings."
  | .UNDERVOLTAGE => "Verify power supply and transformer settings."
  | .OVERCURRENT => "Reduce load or check for short circuits. Verify circuit breaker rating."
  | .HARMONIC_DISTORTION => "Install harmonic filters or upgrade power quality equipment."
  | .POWER_FACTOR_LOW => "Install power factor correction capacitors."
  | .NONE => "System operating normally."

/-- The `if fault: faults.append(fault)` pattern of `diagnose`. -/
def append_fault (faults : List FaultType) (fault : Option FaultType) : List FaultType :=
  match fault with
  | some f => faults ++ [f]
  | none => faults

/-- The fault list accumulated by `FaultDiagnosis.diagnose`
(lines 67-104): the six checks run in the fixed source order. -/
def diagnose_faults (r : ElectricalReading) : List FaultType :=
  let faults : List FaultType := []
  let faults := append_fault faults (check_voltage r.voltage)
  let faults := append_fault faults (check_current r.current)
  let faults := append_fault faults (check_frequency r.frequency)
  let faults := append_fault faults (check_power_factor r.power_factor)
  let faults := append_fault faults (check_phase_imbalance r.phase_a r.phase_b r.phase_c)
  let faults := append_fault faults (check_temperature r.temperature)
  faults

/-- `FaultDiagnosis.diagnose` (lines 57-117). -/
def diagnose (r : ElectricalReading) : DiagnosisResult :=
  let faults := diagnose_faults r
  let primary_fault := faults.headD FaultType.NONE
  { primary_fault := primary_fault.value
    all_faults := faults.map FaultType.value
    severity := calculate_severity faults
    confidence := calculate_confidence r
    action := recommend_action primary_fault }

/-- `FaultDiagnosis.calculate_power` (lines 223-225). -/
def calculate_power (voltage current power_factor : ℚ) : ℚ :=
  voltage * current * power_factor

/-- `FaultDiagnosis.calculate_apparent_power` (lines 227-229). -/
def calculate_apparent_power (voltage current : ℚ) : ℚ :=
  voltage * current

/-- `FaultDiagnosis.calculate_reactive_power` (lines 231-234):
`math.sqrt` raises `ValueError` on a negative argument, modelled as
`none`; otherwise the value `voltage * current * sqrt (1 - pf ^ 2)`. -/
noncomputable def calculate_reactive_power (voltage current power_factor : ℝ) : Option ℝ :=
  if 1 - power_factor ^ 2 < 0 then none
  else some (voltage * current * Real.sqrt (1 - power_factor ^ 2))

/-!
Exception-level embedding of the rule engine. The only operation of
`diagnose` that can raise in Python is the division inside
`_check_phase_imbalance`; `safe_div` makes that failure explicit, and
`diagnoseE` threads it through the whole diagnosis so that totality
(claim C5) becomes the statement `diagnoseE r = .ok (diagnose r)`.
-/

/-- Division that signals the Python ZeroDivisionError instead of
taking Lean's `x / 0 = 0` convention. -/
def safe_div (a b : ℚ) : Except String ℚ :=
  if b = 0 then .error "division by zero" else .ok (a / b)

/-- `_check_phase_imbalance` with its divisions made fallible. -/
def check_phase_imbalanceE (va vb vc : ℚ) : Except String (Option FaultType) :=
  let avg_voltage := (va + vb + vc) / 3
  if avg_voltage = 0 then .ok none
  else do
    let qa ← safe_div (va - avg_voltage) avg_voltage
    let qb ← safe_div (vb - avg_voltage) avg_voltage
    let qc ← safe_div (vc - avg_voltage) avg_voltage
    let imbalance_a := |qa| * 100
    let imbalance_b := |qb| * 100
    let imbalance_c := |qc| * 100
    let max_imbalance := max imbalance_a (max imbalance_b imbalance_c)
    if max_imbalance > PHASE_IMBALANCE_MAX then pure (some .PHASE_IMBALANCE) else pure none

/-- `FaultDiagnosis.diagnose` with the fallible phase-imbalance check:
any raised error would propagate out of the method. -/
def diagnoseE (r : ElectricalReading) : Except String DiagnosisResult := do
  let imbalance_fault ← check_phase_imbalanceE r.phase_a r.phase_b r.phase_c
  let faults : List FaultType := []
  let faults := append_fault faults (check_voltage r.voltage)
  let faults := append_fault faults (check_current r.current)
  let faults := append_fault faults (check_frequency r.frequency)
  let faults := append_fault faults (check_power_factor r.power_factor)
  let faults := append_fault faults imbalance_fault
  let faults := append_fault faults (check_temperature r.temperature)
  let primary_fault := faults.headD FaultType.NONE
  pure
    { primary_fault := primary_fault.value
      all_faults := faults.map FaultType.value
      severity := calculate_severity faults
      confidence := calculate_confidence r
      action := recommend_action primary_fault }

/-!
Statistical path: the `/api/diagnose` handler of `src/app.py`
(lines 473-601). Feature extraction is
`float(data.get(key, default))`: a missing key falls back to a fixed
default, a present non-numeric value makes `float` raise, which the
handler turns into a 400 error response.
-/

/-- A JSON field value as seen by `float(...)`: either something that
parses to a number, or something that makes `float` raise. -/
inductive JsonValue where
  | num (x : ℚ)
  | nonNumeric
deriving DecidableEq, Repr

/-- The five sensor fields of the POST body of `/api/diagnose`; `none`
means the key is absent from the request. -/
structure DiagnoseRequest where
  voltage : Option JsonValue
  current : Option JsonValue
  temperature : Option JsonValue
  vibration : Option JsonValue
  power_factor : Option JsonValue
deriving DecidableEq, Repr

/-- `float(data.get(key, default))` (app.py lines 482-486). -/
def parse_feature (field : Option JsonValue) (fallback : ℚ) : Except String ℚ :=
  match field with
  | none => .ok fallback
  | some (.num x) => .ok x
  | some .nonNumeric => .error "could not convert value to float"

/-- The feature-extraction stage of the handler, with the source's
defaults 230, 50, 60, 5, 0.9. -/
def extract_features (req : DiagnoseRequest) : Except String (List ℚ) := do
  let voltage ← parse_feature req.voltage 230
  let current ← parse_feature req.current 50
  let temperature ← parse_feature req.temperature 60
  let vibration ← parse_feature req.vibration 5
  let pf ← parse_feature req.power_factor (9 / 10)
  pure [voltage, current, temperature, vibration, pf]

/-- True when some field is present but not parseable as a number. -/
def has_non_numeric_field (req : DiagnoseRequest) : Bool :=
  req.voltage == some .nonNumeric || req.current == some .nonNumeric ||
  req.temperature == some .nonNumeric || req.vibration == some .nonNumeric ||
  req.power_factor == some .nonNumeric

/-- True when some field is absent or not parseable as a number. -/
def has_missing_or_non_numeric_field (req : DiagnoseRequest) : Bool :=
  has_non_numeric_field req ||
  req.voltage.isNone || req.current.isNone || req.temperature.isNone ||
  req.vibration.isNone || req.power_factor.isNone

/-- Modelled from the spec: the fitted standardization transform
(per-feature mean and scale). Its learned parameters are runtime state
produced by the training libraries and are not in the repository
source, so the transform is kept abstract over them. -/
structure Scaler where
  mean : Fin 5 → ℚ
  scale : Fin 5 → ℚ

/-- Modelled from the spec: standardization is a per-feature linear
map, total on every real-valued input. -/
def Scaler.transform (s : Scaler) (x : Fin 5 → ℚ) : Fin 5 → ℚ :=
  fun i => (x i - s.mean i) / s.scale i

/-- Modelled from the spec: a decision tree with learned split rules
over the 5 features, classifying into the 4-class taxonomy. -/
inductive DTree where
  | leaf (cls : Fin 4)
  | node (feat : Fin 5) (thr : ℚ) (left : DTree) (right : DTree)

/-- Tree evaluation: total structural recursion over the tree. -/
def DTree.classify : DTree → (Fin 5 → ℚ) → Fin 4
  | .leaf c, _ => c
  | .node i thr l r, x => if x i ≤ thr then l.classify x else r.classify x

/-- Modelled from the spec: the ensemble of trees. -/
def Forest := List DTree

/-- Number of trees of the ensemble voting for class `k`. -/
def Forest.votes (f : Forest) (x : Fin 5 → ℚ) (k : Fin 4) : ℕ :=
  List.countP (fun t => DTree.classify t x == k) f

/-- Modelled from the spec: class-probability estimation as the voting
fraction of the ensemble. -/
def Forest.classProb (f : Forest) (x : Fin 5 → ℚ) (k : Fin 4) : ℚ :=
  (Forest.votes f x k : ℚ) / (List.length f : ℚ)

/-- Modelled from the spec: the predicted class is one of maximal
probability (first such index on ties). -/
def Forest.predict (f : Forest) (x : Fin 5 → ℚ) : Fin 4 :=
  let v := fun k => Forest.votes f x k
  let b1 : Fin 4 := if v 0 < v 1 then 1 else 0
  let b2 : Fin 4 := if v b1 < v 2 then 2 else b1
  if v b2 < v 3 then 3 else b2

/-- The `FAULT_TYPES` lookup table (app.py lines 223-228). -/
def FAULT_TYPES (k : Fin 4) : String :=
  if k.val = 0 then "Normal Operation"
  else if k.val = 1 then "Overheat"
  else if k.val = 2 then "Overload"
  else "Short Circuit"

/-- The `RECOMMENDATIONS` lookup table (app.py lines 230-235). -/
def RECOMMENDATIONS (k : Fin 4) : String :=
  if k.val = 0 then "System operating normally. Continue monitoring."
  else if k.val = 1 then "Reduce load or improve cooling. Check ventilation."
  else if k.val = 2 then "Reduce load immediately. Inspect circuit breaker."
  else "EMERGENCY: Shut down immediately. Check for faults."

/-- The diagnosis part of the handler response. -/
structure ModelDiagnosis where
  fault_type : String
  recommendation : String
  confidence : ℚ
deriving DecidableEq, Repr

/-- The `/api/diagnose` computation (app.py lines 477-497): extract the
five features, standardize, predict, look up name and recommendation,
and report the predicted class probability scaled to percent. -/
def diagnose_by_model (s : Scaler) (f : Forest) (req : DiagnoseRequest) :
    Except String ModelDiagnosis := do
  let feats ← extract_features req
  let x : Fin 5 → ℚ := fun i => feats.getD i.val 0
  let xs := Scaler.transform s x
  let k := Forest.predict f xs
  pure
    { fault_type := FAULT_TYPES k
      recommendation := RECOMMENDATIONS k
      confidence := Forest.classProb f xs k * 100 }

/-!
Claim-side (spec-side) definitions, to be compared with the embedded
code above.
-/

/-- The six checks of `diagnose` in their fixed source order: voltage,
current, frequency, power factor, phase imbalance, temperature. -/
def checks_list (r : ElectricalReading) : List (Option FaultType) :=
  [check_voltage r.voltage,
   check_current r.current,
   check_frequency r.frequency,
   check_power_factor r.power_factor,
   check_phase_imbalance r.phase_a r.phase_b r.phase_c,
   check_temperature r.temperature]

/-- The fixed severity table of the spec, keyed by fault-name string. -/
def severity_table (fault : String) : Option String :=
  if fault = "Short Circuit" then some "Critical"
  else if fault = "Ground Fault" then some "Critical"
  else if fault = "Overcurrent" then some "High"
  else if fault = "Overvoltage" then some "High"
  else if fault = "Phase Imbalance" then some "Medium"
  else if fault = "Low Power Factor" then some "Low"
  else none

/-- The in-order scan of the spec over fault-name strings. -/
def scan_severity_str : List String → String
  | [] => "Medium"
  | f :: rest =>
    match severity_table f with
    | some s => s
    | none => scan_severity_str rest

/-- Severity exactly as claim C1 words it: None when no checks
triggered, Critical when three or more DISTINCT faults triggered,
otherwise the table severity of the first fault of `all_faults`,
Medium when no triggered fault is in the table. -/
def claimed_severity_distinct (all_faults : List String) : String :=
  if all_faults = [] then "None"
  else if 3 ≤ all_faults.dedup.length then "Critical"
  else scan_severity_str all_faults

/-- Claim C1 amended: the Critical rule counts triggered checks (list
entries of `all_faults`, duplicates included), not distinct faults. -/
def amended_severity_entries (all_faults : List String) : String :=
  if all_faults = [] then "None"
  else if 3 ≤ all_faults.length then "Critical"
  else scan_severity_str all_faults

/-!
Supporting lemmas.
-/

/-- Appending an optional fault is appending its `toList`. -/
theorem append_fault_eq (faults : List FaultType) (fault : Option FaultType) :
    append_fault faults fault = faults ++ fault.toList := by
  cases fault <;> simp [append_fault]

/-- The accumulated fault list is the in-order concatenation of the six
check results. -/
theorem diagnose_faults_eq_filterMap (r : ElectricalReading) :
    diagnose_faults r = (checks_list r).filterMap id := by
  simp only [diagnose_faults, checks_list, append_fault_eq, List.filterMap_cons]
  cases check_voltage r.voltage <;>
    cases check_current r.current <;>
    cases check_frequency r.frequency <;>
    cases check_power_factor r.power_factor <;>
    cases check_phase_imbalance r.phase_a r.phase_b r.phase_c <;>
    cases check_temperature r.temperature <;>
    simp

/-- The voltage check never emits `NONE`. -/
theorem check_voltage_ne_NONE (v : ℚ) : check_voltage v ≠ some FaultType.NONE := by
  unfold check_voltage; split_ifs <;> simp

/-- The current check never emits `NONE`. -/
theorem check_current_ne_NONE (c : ℚ) : check_current c ≠ some FaultType.NONE := by
  unfold check_current; split_ifs <;> simp

/-- The frequency check never emits `NONE`. -/
theorem check_frequency_ne_NONE (fr : ℚ) : check_frequency fr ≠ some FaultType.NONE := by
  unfold check_frequency; split_ifs <;> simp

/-- The power-factor check never emits `NONE`. -/
theorem check_power_factor_ne_NONE (pf : ℚ) :
    check_power_factor pf ≠ some FaultType.NONE := by
  unfold check_power_factor; split_ifs <;> simp

/-- The phase-imbalance check never emits `NONE`. -/
theorem check_phase_imbalance_ne_NONE (va vb vc : ℚ) :
    check_phase_imbalance va vb vc ≠ some FaultType.NONE := by
  unfold check_phase_imbalance; dsimp only; split_ifs <;> simp

/-- The temperature check never emits `NONE`. -/
theorem check_temperature_ne_NONE (t : ℚ) :
    check_temperature t ≠ some FaultType.NONE := by
  unfold check_temperature; split_ifs <;> simp

/-- No check ever emits the `NONE` member. -/
theorem NONE_not_mem_diagnose_faults (r : ElectricalReading) :
    FaultType.NONE ∉ diagnose_faults r := by
  rw [diagnose_faults_eq_filterMap]
  intro h
  rw [List.mem_filterMap] at h
  obtain ⟨o, ho, hid⟩ := h
  simp only [id_eq] at hid
  subst hid
  simp only [checks_list, List.mem_cons, List.not_mem_nil, or_false] at ho
  rcases ho with h | h | h | h | h | h
  · exact check_voltage_ne_NONE _ h.symm
  · exact check_current_ne_NONE _ h.symm
  · exact check_frequency_ne_NONE _ h.symm
  · exact check_power_factor_ne_NONE _ h.symm
  · exact check_phase_imbalance_ne_NONE _ _ _ h.symm
  · exact check_temperature_ne_NONE _ h.symm

/-- The string-keyed spec table agrees with the enum-keyed source table
under `FaultType.value`. -/
theorem severity_table_value (f : FaultType) :
    severity_table f.value = severity_map f := by
  cases f <;> rfl

/-- The in-order scans agree under `FaultType.value`. -/
theorem scan_severity_str_map (fs : List FaultType) :
    scan_severity_str (fs.map FaultType.value) = scan_severity fs := by
  induction fs with
  | nil => rfl
  | cons f rest ih =>
    simp only [List.map_cons, scan_severity_str, scan_severity, severity_table_value]
    cases severity_map f <;> simp [ih]

/-- On a `NONE`-free fault list, the source severity computation agrees
with the entry-counting severity formula over fault-name strings. -/
theorem calculate_severity_eq_amended (fs : List FaultType)
    (h : FaultType.NONE ∉ fs) :
    calculate_severity fs = amended_severity_entries (fs.map FaultType.value) := by
  unfold calculate_severity amended_severity_entries
  by_cases hfs : fs = []
  · subst hfs; simp
  · have hmap : List.map FaultType.value fs ≠ [] := by simp [hfs]
    rw [if_neg (not_or.mpr ⟨hfs, h⟩), if_neg hmap, List.length_map,
      scan_severity_str_map]

/-!
Claim theorems.
-/

/-- C7: for the reading voltage 260, current 15, frequency 50, power
factor 0.95, all phases 230, temperature 40, the rule-based diagnose
returns primary fault Overvoltage, severity High, confidence 100.0 and
the single-element fault list. -/
theorem C7_overvoltage_example :
    (diagnose ⟨260, 15, 50, 95 / 100, 230, 230, 230, 40⟩).primary_fault = "Overvoltage" ∧
    (diagnose ⟨260, 15, 50, 95 / 100, 230, 230, 230, 40⟩).severity = "High" ∧
    (diagnose ⟨260, 15, 50, 95 / 100, 230, 230, 230, 40⟩).confidence = 100 ∧
    (diagnose ⟨260, 15, 50, 95 / 100, 230, 230, 230, 40⟩).all_faults = ["Overvoltage"] := by
  norm_num [diagnose, diagnose_faults, append_fault, check_voltage, check_current,
    check_frequency, check_power_factor, check_phase_imbalance, check_temperature,
    calculate_severity, scan_severity, severity_map, calculate_confidence,
    recommend_action, FaultType.value, VOLTAGE_MAX, VOLTAGE_MIN, CURRENT_MAX,
    FREQUENCY_MIN, FREQUENCY_MAX, POWER_FACTOR_MIN, PHASE_IMBALANCE_MAX,
    TEMPERATURE_MAX]
  decide

/-- C1, counterexample: at voltage 260, current 35, temperature 90 the
code appends Overvoltage once and Overcurrent twice, so the list has
three entries but only two distinct faults; the code returns Critical
while the claimed distinct-counting severity returns High. -/
theorem C1_counterexample :
    (diagnose ⟨260, 35, 50, 95 / 100, 230, 230, 230, 90⟩).severity ≠
      claimed_severity_distinct
        (diagnose ⟨260, 35, 50, 95 / 100, 230, 230, 230, 90⟩).all_faults := by
  norm_num [diagnose, diagnose_faults, append_fault, check_voltage, check_current,
    check_frequency, check_power_factor, check_phase_imbalance, check_temperature,
    calculate_severity, scan_severity, severity_map, calculate_confidence,
    recommend_action, FaultType.value, VOLTAGE_MAX, VOLTAGE_MIN, CURRENT_MAX,
    FREQUENCY_MIN, FREQUENCY_MAX, POWER_FACTOR_MIN, PHASE_IMBALANCE_MAX,
    TEMPERATURE_MAX]
  decide

/-- C1, amended: the severity of every diagnosis equals the fixed
formula over its fault-name list in which the Critical rule counts
triggered checks (list entries, duplicates included) rather than
distinct faults; the None case, the in-order table scan and the Medium
default are as the claim states them. -/
theorem C1_severity_formula (r : ElectricalReading) :
    (diagnose r).severity = amended_severity_entries (diagnose r).all_faults := by
  have h := calculate_severity_eq_amended (diagnose_faults r)
    (NONE_not_mem_diagnose_faults r)
  simpa [diagnose] using h

/-- C10: the confidence of every diagnosis lies in the interval
[65, 100]; the lower clamp at 0 is never reached. -/
theorem C10_confidence_bounds (r : ElectricalReading) :
    65 ≤ (diagnose r).confidence ∧ (diagnose r).confidence ≤ 100 := by
  simp only [diagnose]
  unfold calculate_confidence
  dsimp only
  split_ifs <;> constructor <;> norm_num [min_def, max_def]

/-- The voltage check never emits `OVERCURRENT`. -/
theorem check_voltage_ne_OVERCURRENT (v : ℚ) :
    check_voltage v ≠ some FaultType.OVERCURRENT := by
  unfold check_voltage; split_ifs <;> simp

/-- The frequency check never emits `OVERCURRENT`. -/
theorem check_frequency_ne_OVERCURRENT (fr : ℚ) :
    check_frequency fr ≠ some FaultType.OVERCURRENT := by
  unfold check_frequency; split_ifs <;> simp

/-- The power-factor check never emits `OVERCURRENT`. -/
theorem check_power_factor_ne_OVERCURRENT (pf : ℚ) :
    check_power_factor pf ≠ some FaultType.OVERCURRENT := by
  unfold check_power_factor; split_ifs <;> simp

/-- The phase-imbalance check never emits `OVERCURRENT`. -/
theorem check_phase_imbalance_ne_OVERCURRENT (va vb vc : ℚ) :
    check_phase_imbalance va vb vc ≠ some FaultType.OVERCURRENT := by
  unfold check_phase_imbalance; dsimp only; split_ifs <;> simp

/-- Counting a string in the rendering of one optional fault. -/
theorem count_value_toList (o : Option FaultType) (s : String)
    (h : ∀ f, o = some f → f.value ≠ s) :
    (o.toList.map FaultType.value).count s = 0 := by
  cases o with
  | none => rfl
  | some f =>
    simp only [Option.toList_some, List.map_cons, List.map_nil]
    rw [List.count_singleton]
    simp [h f rfl]

/-- `filterMap id` splits off the head option as its `toList`. -/
theorem filterMap_id_cons {α : Type} (o : Option α) (l : List (Option α)) :
    List.filterMap id (o :: l) = o.toList ++ List.filterMap id l := by
  cases o <;> simp

/-- Only the `OVERCURRENT` member renders as the Overcurrent string. -/
theorem value_eq_overcurrent {f : FaultType} (h : f.value = "Overcurrent") :
    f = FaultType.OVERCURRENT := by
  cases f <;> first | rfl | exact absurd h (by decide)

/-- C4: the checks run in the fixed order voltage, current, frequency,
power factor, phase imbalance, temperature; `all_faults` is exactly the
in-order list of triggered faults, `primary_fault` is its first element
(No Fault when empty), and a temperature above 80 contributes the fault
Overcurrent. -/
theorem C4_check_order (r : ElectricalReading) :
    (diagnose r).all_faults = ((checks_list r).filterMap id).map FaultType.value ∧
    (diagnose r).primary_fault = (diagnose r).all_faults.headD "No Fault" ∧
    (80 < r.temperature → "Overcurrent" ∈ (diagnose r).all_faults) := by
  refine ⟨by simp [diagnose, diagnose_faults_eq_filterMap], ?_, ?_⟩
  · simp only [diagnose]
    cases diagnose_faults r with
    | nil => rfl
    | cons f rest => rfl
  · intro ht
    have hchk : check_temperature r.temperature = some FaultType.OVERCURRENT := by
      unfold check_temperature TEMPERATURE_MAX
      rw [if_pos ht]
    simp only [diagnose, diagnose_faults_eq_filterMap]
    refine List.mem_map.mpr ⟨FaultType.OVERCURRENT, ?_, rfl⟩
    refine List.mem_filterMap.mpr ⟨some FaultType.OVERCURRENT, ?_, rfl⟩
    simp [checks_list, hchk]

/-- C4 witness at a concrete overtemperature reading. -/
theorem C4_check_order_witness :
    "Overcurrent" ∈ (diagnose ⟨230, 15, 50, 95 / 100, 230, 230, 230, 90⟩).all_faults :=
  (C4_check_order ⟨230, 15, 50, 95 / 100, 230, 230, 230, 90⟩).2.2 (by norm_num)

/-- C9: whenever current exceeds 30 and temperature exceeds 80, the
fault list contains Overcurrent exactly twice, so it is not
duplicate-free; at the concrete reading voltage 260, current 35,
temperature 90 only two distinct faults triggered yet the severity is
Critical, showing the three-fault rule counts list entries. -/
theorem C9_overcurrent_duplicate :
    (∀ r : ElectricalReading, 30 < r.current → 80 < r.temperature →
      (diagnose r).all_faults.count "Overcurrent" = 2 ∧
      ¬ (diagnose r).all_faults.Nodup) ∧
    (diagnose ⟨260, 35, 50, 95 / 100, 230, 230, 230, 90⟩).severity = "Critical" ∧
    (diagnose ⟨260, 35, 50, 95 / 100, 230, 230, 230, 90⟩).all_faults.dedup.length = 2 := by
  refine ⟨fun r hc ht => ?_, ?_⟩
  · have hcur : check_current r.current = some FaultType.OVERCURRENT := by
      unfold check_current CURRENT_MAX
      rw [if_pos hc]
    have htmp : check_temperature r.temperature = some FaultType.OVERCURRENT := by
      unfold check_temperature TEMPERATURE_MAX
      rw [if_pos ht]
    have hv0 : ((check_voltage r.voltage).toList.map FaultType.value).count "Overcurrent" = 0 :=
      count_value_toList _ _ (fun f hf hval =>
        check_voltage_ne_OVERCURRENT r.voltage (value_eq_overcurrent hval ▸ hf))
    have hf0 : ((check_frequency r.frequency).toList.map FaultType.value).count "Overcurrent" = 0 :=
      count_value_toList _ _ (fun f hf hval =>
        check_frequency_ne_OVERCURRENT r.frequency (value_eq_overcurrent hval ▸ hf))
    have hp0 : ((check_power_factor r.power_factor).toList.map FaultType.value).count "Overcurrent" = 0 :=
      count_value_toList _ _ (fun f hf hval =>
        check_power_factor_ne_OVERCURRENT r.power_factor (value_eq_overcurrent hval ▸ hf))
    have hi0 : ((check_phase_imbalance r.phase_a r.phase_b r.phase_c).toList.map
        FaultType.value).count "Overcurrent" = 0 :=
      count_value_toList _ _ (fun f hf hval =>
        check_phase_imbalance_ne_OVERCURRENT r.phase_a r.phase_b r.phase_c
          (value_eq_overcurrent hval ▸ hf))
    have hcount : (diagnose r).all_faults.count "Overcurrent" = 2 := by
      simp only [diagnose, diagnose_faults_eq_filterMap, checks_list,
        filterMap_id_cons, List.filterMap_nil, List.append_nil, List.map_append,
        List.count_append, hcur, htmp, hv0, hf0, hp0, hi0]
      decide
    refine ⟨hcount, fun hnd => ?_⟩
    have := List.nodup_iff_count_le_one.mp hnd "Overcurrent"
    omega
  · constructor
    · norm_num [diagnose, diagnose_faults, append_fault, check_voltage, check_current,
        check_frequency, check_power_factor, check_phase_imbalance, check_temperature,
        calculate_severity, scan_severity, severity_map, FaultType.value,
        VOLTAGE_MAX, VOLTAGE_MIN, CURRENT_MAX, FREQUENCY_MIN, FREQUENCY_MAX,
        POWER_FACTOR_MIN, PHASE_IMBALANCE_MAX, TEMPERATURE_MAX]
      decide
    · norm_num [diagnose, diagnose_faults, append_fault, check_voltage, check_current,
        check_frequency, check_power_factor, check_phase_imbalance, check_temperature,
        FaultType.value, VOLTAGE_MAX, VOLTAGE_MIN, CURRENT_MAX, FREQUENCY_MIN,
        FREQUENCY_MAX, POWER_FACTOR_MIN, PHASE_IMBALANCE_MAX, TEMPERATURE_MAX]
      decide

/-- C9 witness at a concrete reading with current 35 and temperature 90. -/
theorem C9_overcurrent_duplicate_witness :
    (diagnose ⟨230, 35, 50, 95 / 100, 230, 230, 230, 90⟩).all_faults.count "Overcurrent" = 2 ∧
    ¬ (diagnose ⟨230, 35, 50, 95 / 100, 230, 230, 230, 90⟩).all_faults.Nodup :=
  C9_overcurrent_duplicate.1 ⟨230, 35, 50, 95 / 100, 230, 230, 230, 90⟩
    (by norm_num) (by norm_num)

/-- C6: the confidence of every diagnosis is 100 minus 10 for voltage
beyond 375 or below 100, minus 10 for current beyond 45, minus 15 for
power factor below 0.7, clamped to [0, 100]; it depends only on the
voltage, current and power-factor fields. -/
theorem C6_confidence_formula (r r2 : ElectricalReading)
    (h1 : r.voltage = r2.voltage) (h2 : r.current = r2.current)
    (h3 : r.power_factor = r2.power_factor) :
    (diagnose r).confidence =
      max 0 (min 100
        ((100 : ℚ) - (if 375 < r.voltage ∨ r.voltage < 100 then 10 else 0)
          - (if 45 < r.current then 10 else 0)
          - (if r.power_factor < 7 / 10 then 15 else 0))) ∧
    (diagnose r).confidence = (diagnose r2).confidence := by
  constructor
  · simp only [diagnose]
    unfold calculate_confidence
    dsimp only
    norm_num [VOLTAGE_MAX, VOLTAGE_MIN, CURRENT_MAX, gt_iff_lt]
    split_ifs <;> norm_num
  · simp only [diagnose]
    unfold calculate_confidence
    rw [h1, h2, h3]

/-- C6 witness: two concrete readings sharing voltage, current and
power factor but differing in every other field. -/
theorem C6_confidence_formula_witness :
    (diagnose ⟨230, 15, 50, 95 / 100, 230, 230, 230, 40⟩).confidence =
      max 0 (min 100
        ((100 : ℚ) - (if (375 : ℚ) < 230 ∨ (230 : ℚ) < 100 then 10 else 0)
          - (if (45 : ℚ) < 15 then 10 else 0)
          - (if (95 / 100 : ℚ) < 7 / 10 then 15 else 0))) ∧
    (diagnose ⟨230, 15, 50, 95 / 100, 230, 230, 230, 40⟩).confidence =
      (diagnose ⟨230, 15, 40, 95 / 100, 200, 230, 260, 90⟩).confidence :=
  C6_confidence_formula ⟨230, 15, 50, 95 / 100, 230, 230, 230, 40⟩
    ⟨230, 15, 40, 95 / 100, 200, 230, 260, 90⟩ rfl rfl rfl

/-- If every phase deviates from the average by at most 5% of its
magnitude, the phase-imbalance check stays silent. -/
theorem check_phase_imbalance_none (va vb vc : ℚ)
    (ha : |va - (va + vb + vc) / 3| ≤ |(va + vb + vc) / 3| * (5 / 100))
    (hb : |vb - (va + vb + vc) / 3| ≤ |(va + vb + vc) / 3| * (5 / 100))
    (hc : |vc - (va + vb + vc) / 3| ≤ |(va + vb + vc) / 3| * (5 / 100)) :
    check_phase_imbalance va vb vc = none := by
  unfold check_phase_imbalance
  dsimp only
  by_cases h : (va + vb + vc) / 3 = 0
  · rw [if_pos h]
  · rw [if_neg h, if_neg]
    rw [not_lt]
    have h0 : 0 < |(va + vb + vc) / 3| := abs_pos.mpr h
    have key : ∀ p : ℚ, |p - (va + vb + vc) / 3| ≤ |(va + vb + vc) / 3| * (5 / 100) →
        |(p - (va + vb + vc) / 3) / ((va + vb + vc) / 3)| * 100 ≤ PHASE_IMBALANCE_MAX := by
      intro p hp
      rw [abs_div, div_mul_eq_mul_div, div_le_iff₀ h0, PHASE_IMBALANCE_MAX]
      nlinarith [abs_nonneg (p - (va + vb + vc) / 3)]
    exact max_le (key va ha) (max_le (key vb hb) (key vc hc))

/-- C2: every reading inside all nominal ranges diagnoses to No Fault,
severity None and an empty fault list. -/
theorem C2_nominal_no_fault (r : ElectricalReading)
    (hv1 : 200 ≤ r.voltage) (hv2 : r.voltage ≤ 250)
    (hc : r.current ≤ 30)
    (hf1 : 48 ≤ r.frequency) (hf2 : r.frequency ≤ 52)
    (hpf : 85 / 100 ≤ r.power_factor)
    (hpa : |r.phase_a - (r.phase_a + r.phase_b + r.phase_c) / 3| ≤
      |(r.phase_a + r.phase_b + r.phase_c) / 3| * (5 / 100))
    (hpb : |r.phase_b - (r.phase_a + r.phase_b + r.phase_c) / 3| ≤
      |(r.phase_a + r.phase_b + r.phase_c) / 3| * (5 / 100))
    (hpc : |r.phase_c - (r.phase_a + r.phase_b + r.phase_c) / 3| ≤
      |(r.phase_a + r.phase_b + r.phase_c) / 3| * (5 / 100))
    (ht : r.temperature ≤ 80) :
    (diagnose r).primary_fault = "No Fault" ∧
    (diagnose r).severity = "None" ∧
    (diagnose r).all_faults = [] := by
  have h1 : check_voltage r.voltage = none := by
    unfold check_voltage VOLTAGE_MAX VOLTAGE_MIN
    rw [if_neg (not_lt.mpr hv2), if_neg (not_lt.mpr hv1)]
  have h2 : check_current r.current = none := by
    unfold check_current CURRENT_MAX
    rw [if_neg (not_lt.mpr hc)]
  have h3 : check_frequency r.frequency = none := by
    unfold check_frequency FREQUENCY_MIN FREQUENCY_MAX
    rw [if_neg (not_or.mpr ⟨not_lt.mpr hf1, not_lt.mpr hf2⟩)]
  have h4 : check_power_factor r.power_factor = none := by
    unfold check_power_factor POWER_FACTOR_MIN
    rw [if_neg (not_lt.mpr hpf)]
  have h5 : check_phase_imbalance r.phase_a r.phase_b r.phase_c = none :=
    check_phase_imbalance_none _ _ _ hpa hpb hpc
  have h6 : check_temperature r.temperature = none := by
    unfold check_temperature TEMPERATURE_MAX
    rw [if_neg (not_lt.mpr ht)]
  have hfaults : diagnose_faults r = [] := by
    simp [diagnose_faults, append_fault, h1, h2, h3, h4, h5, h6]
  refine ⟨?_, ?_, ?_⟩ <;>
    simp [diagnose, hfaults, calculate_severity, FaultType.value]

/-- C2 witness at the sample nominal reading. -/
theorem C2_nominal_no_fault_witness :
    (diagnose ⟨230, 15, 50, 9 / 10, 230, 230, 230, 40⟩).primary_fault = "No Fault" ∧
    (diagnose ⟨230, 15, 50, 9 / 10, 230, 230, 230, 40⟩).severity = "None" ∧
    (diagnose ⟨230, 15, 50, 9 / 10, 230, 230, 230, 40⟩).all_faults = [] :=
  C2_nominal_no_fault ⟨230, 15, 50, 9 / 10, 230, 230, 230, 40⟩
    (by norm_num) (by norm_num) (by norm_num) (by norm_num) (by norm_num)
    (by norm_num) (by norm_num [abs_le]) (by norm_num [abs_le])
    (by norm_num [abs_le]) (by norm_num)

/-- The fallible phase-imbalance check never raises: it computes the
same value as the total source embedding. -/
theorem check_phase_imbalanceE_ok (va vb vc : ℚ) :
    check_phase_imbalanceE va vb vc = .ok (check_phase_imbalance va vb vc) := by
  unfold check_phase_imbalanceE check_phase_imbalance safe_div
  dsimp only
  by_cases h : (va + vb + vc) / 3 = 0
  · rw [if_pos h, if_pos h]
  · simp only [if_neg h]
    rw [apply_ite (Except.ok : Option FaultType → Except String (Option FaultType))]
    rfl

/-- C5: the rule-based diagnose is total: the exception-level embedding
always returns the result of the pure embedding, and an average phase
voltage of exactly 0 makes the phase-imbalance check return no fault
rather than divide by zero. -/
theorem C5_diagnose_total (r : ElectricalReading) :
    diagnoseE r = .ok (diagnose r) ∧
    (∀ va vb vc : ℚ, (va + vb + vc) / 3 = 0 →
      check_phase_imbalance va vb vc = none) := by
  constructor
  · unfold diagnoseE
    rw [check_phase_imbalanceE_ok]
    rfl
  · intro va vb vc h
    unfold check_phase_imbalance
    dsimp only
    rw [if_pos h]

/-- C5 witness: a concrete diagnosis, and the zero-average phase triple
1, 1, -2. -/
theorem C5_diagnose_total_witness :
    diagnoseE ⟨230, 15, 50, 9 / 10, 1, 1, -2, 40⟩ =
      .ok (diagnose ⟨230, 15, 50, 9 / 10, 1, 1, -2, 40⟩) ∧
    check_phase_imbalance 1 1 (-2) = none :=
  ⟨(C5_diagnose_total ⟨230, 15, 50, 9 / 10, 1, 1, -2, 40⟩).1,
   (C5_diagnose_total ⟨230, 15, 50, 9 / 10, 1, 1, -2, 40⟩).2 1 1 (-2) (by norm_num)⟩

/-- C3, counterexample: a request with every feature field missing does
not fail: each `float(data.get(key, default))` substitutes its fixed
default, extraction succeeds with the default feature vector, and the
model stage returns a diagnosis. -/
theorem C3_counterexample :
    has_missing_or_non_numeric_field ⟨none, none, none, none, none⟩ = true ∧
    extract_features ⟨none, none, none, none, none⟩ = .ok [230, 50, 60, 5, 9 / 10] ∧
    (diagnose_by_model ⟨fun _ => 0, fun _ => 1⟩ [DTree.leaf 0]
      ⟨none, none, none, none, none⟩).isOk = true :=
  ⟨rfl, rfl, rfl⟩

/-- C3, amended: the statistical diagnosis fails with an invalid-input
error, before reaching the model, exactly when some supplied feature
value is non-numeric; a missing feature value does not fail but is
replaced by its fixed default (voltage 230, current 50, temperature 60,
vibration 5, power factor 0.9), and for every numeric input the scaling
and tree-ensemble stages return a diagnosis. -/
theorem C3_parse_behavior (s : Scaler) (f : Forest) (req : DiagnoseRequest) :
    (has_non_numeric_field req = true →
      diagnose_by_model s f req = .error "could not convert value to float") ∧
    (has_non_numeric_field req = false →
      ∃ out, diagnose_by_model s f req = .ok out) := by
  obtain ⟨v, c, t, vb, pf⟩ := req
  rcases v with _ | (x | _) <;> rcases c with _ | (y | _) <;>
    rcases t with _ | (z | _) <;> rcases vb with _ | (w | _) <;>
    rcases pf with _ | (u | _) <;>
    exact ⟨fun h => by first | rfl | exact Bool.noConfusion h,
           fun h => by first | exact ⟨_, rfl⟩ | exact Bool.noConfusion h⟩

/-- C3 witness: a request with a non-numeric voltage fails, a request
with all fields absent succeeds. -/
theorem C3_parse_behavior_witness :
    diagnose_by_model ⟨fun _ => 0, fun _ => 1⟩ [DTree.leaf 0]
      ⟨some .nonNumeric, none, none, none, none⟩ =
      .error "could not convert value to float" ∧
    ∃ out, diagnose_by_model ⟨fun _ => 0, fun _ => 1⟩ [DTree.leaf 0]
      ⟨none, some (.num 50), none, none, none⟩ = .ok out :=
  ⟨(C3_parse_behavior ⟨fun _ => 0, fun _ => 1⟩ [DTree.leaf 0]
      ⟨some .nonNumeric, none, none, none, none⟩).1 rfl,
   (C3_parse_behavior ⟨fun _ => 0, fun _ => 1⟩ [DTree.leaf 0]
      ⟨none, some (.num 50), none, none, none⟩).2 rfl⟩

/-- C8: apparent power is the plain product for all inputs, with the
value 2300 at 230 V and 10 A; reactive power is
voltage times current times sqrt of 1 minus the squared power factor
whenever that square is at most 1, giving 0 at unity power factor, and
fails when the square exceeds 1. -/
theorem C8_power_utilities :
    (∀ v c : ℚ, calculate_apparent_power v c = v * c) ∧
    calculate_apparent_power 230 10 = 2300 ∧
    (∀ v c pf : ℝ, pf ^ 2 ≤ 1 →
      calculate_reactive_power v c pf = some (v * c * Real.sqrt (1 - pf ^ 2))) ∧
    calculate_reactive_power 230 10 1 = some 0 ∧
    (∀ v c pf : ℝ, 1 < pf ^ 2 → calculate_reactive_power v c pf = none) := by
  refine ⟨fun v c => rfl, by norm_num [calculate_apparent_power], ?_, ?_, ?_⟩
  · intro v c pf h
    unfold calculate_reactive_power
    rw [if_neg (by linarith)]
  · unfold calculate_reactive_power
    norm_num
  · intro v c pf h
    unfold calculate_reactive_power
    rw [if_pos (by linarith)]

/-- C8 witness: the domain condition holds at power factor 0.6 and the
out-of-domain condition at power factor 2. -/
theorem C8_power_utilities_witness :
    calculate_reactive_power 5 4 (3 / 5) = some (5 * 4 * Real.sqrt (1 - (3 / 5) ^ 2)) ∧
    calculate_reactive_power 1 1 2 = none :=
  ⟨C8_power_utilities.2.2.1 5 4 (3 / 5) (by norm_num),
   C8_power_utilities.2.2.2.2 1 1 2 (by norm_num)⟩

end Electrical
